import Mathlib

/-!
Verification of the two storage-notification build-trigger handlers of the
`blog` repository: the config-driven handler in `src/lambda/app.py` and the
trigger-by-name handler in `src/infra/lambda/app.py`.

Both handlers are shallowly embedded: the results of the two external calls
(the configuration fetch from object storage and the build service's
start-build operation) are passed in as explicit oracle values, and each
handler returns, besides its response, the list of project names it passed
to the build service, so that the absence or identity of the build-start
call is observable.  Python exceptions that the source does not catch are
modelled with `Except`.
-/

/-- A single apostrophe, used in the handlers' message strings. -/
def apo : String := String.mk [Char.ofNat 39]

/-- The lowercase hexadecimal digit for `n % 16`, as used by `json.dumps`
in its unicode escapes. -/
def hexDigit (n : Nat) : Char :=
  if n % 16 < 10 then Char.ofNat (48 + n % 16) else Char.ofNat (87 + n % 16)

/-- Four lowercase hexadecimal digits of `n`, most significant first. -/
def hex4 (n : Nat) : List Char :=
  [hexDigit (n / 4096), hexDigit (n / 256), hexDigit (n / 16), hexDigit n]

/-- How Python's `json.dumps` (with its default `ensure_ascii=True`) renders
one character of a string: the two-character short escapes, `\uXXXX` escapes
for other control and non-ASCII characters (a surrogate pair above the basic
multilingual plane), and the character itself otherwise. -/
def jsonEscapeChar (c : Char) : List Char :=
  if c = Char.ofNat 34 then [Char.ofNat 92, Char.ofNat 34]
  else if c = Char.ofNat 92 then [Char.ofNat 92, Char.ofNat 92]
  else if c = Char.ofNat 10 then [Char.ofNat 92, Char.ofNat 110]
  else if c = Char.ofNat 13 then [Char.ofNat 92, Char.ofNat 114]
  else if c = Char.ofNat 9 then [Char.ofNat 92, Char.ofNat 116]
  else if c = Char.ofNat 8 then [Char.ofNat 92, Char.ofNat 98]
  else if c = Char.ofNat 12 then [Char.ofNat 92, Char.ofNat 102]
  else if c.toNat < 32 ∨ c.toNat > 126 then
    if c.toNat ≤ 65535 then Char.ofNat 92 :: Char.ofNat 117 :: hex4 c.toNat
    else
      (Char.ofNat 92 :: Char.ofNat 117 :: hex4 (55296 + (c.toNat - 65536) / 1024)) ++
      (Char.ofNat 92 :: Char.ofNat 117 :: hex4 (56320 + (c.toNat - 65536) % 1024))
  else [c]

/-- Python's `json.dumps` applied to a single string: the escaped characters
between double quotes. -/
def jsonDumps (s : String) : String :=
  String.mk (Char.ofNat 34 :: ((s.data.map jsonEscapeChar).flatten ++ [Char.ofNat 34]))

/-- The success message both handlers build:
`Build started and returned status '<status>'`. -/
def successMsg (build_status : String) : String :=
  "Build started and returned status " ++ apo ++ build_status ++ apo

/-- The failure message both handlers build:
`Failed to CodeBuild project '<project>', build status returned '<status>'`. -/
def failMsg (project build_status : String) : String :=
  "Failed to CodeBuild project " ++ apo ++ project ++
    apo ++ ", build status returned " ++ apo ++ build_status ++ apo

/-- The config-fetch failure message of the config-driven handler:
`Failed to read config file '<key>' from bucket '<bucket>'.`. -/
def readFailMsg (key bucket : String) : String :=
  "Failed to read config file " ++ apo ++ key ++ apo ++
    " from bucket " ++ apo ++ bucket ++ apo ++ "."

/-- The `LambdaResponse` TypedDict shared by both handlers. -/
structure LambdaResponse where
  isBase64Encoded : Bool
  statusCode : Nat
  body : String
deriving DecidableEq, Repr

/-- The `object` member of a change record's `s3` member; the handlers read
only `key`, the other field stands for the notification data they ignore. -/
structure S3ObjectInfo where
  key : String
  size : Nat
deriving DecidableEq, Repr

/-- The `s3` member of a change record. -/
structure S3Entity where
  bucket : String
  object : S3ObjectInfo
deriving DecidableEq, Repr

/-- One change record of a storage notification; the handlers read only
`s3.object.key`. -/
structure S3Record where
  eventName : String
  s3 : S3Entity
deriving DecidableEq, Repr

/-- The `S3EventNotification` TypedDict: the list of change records. -/
structure S3EventNotification where
  Records : List S3Record
deriving DecidableEq, Repr

/-- A YAML value as far as the config-driven handler consumes it: a scalar
or a mapping (`yaml.safe_load` output). -/
inductive Yaml where
  | str : String → Yaml
  | map : List (String × Yaml) → Yaml

/-- Python subscription `value[k]` on a YAML value, `none` when the value is
not a mapping or the key is absent (both raise uncaught in the source). -/
def Yaml.lookup : Yaml → String → Option Yaml
  | Yaml.str _, _ => none
  | Yaml.map entries, k => List.lookup k entries

/-- Outcome of the configuration fetch and parse in the config-driven
handler: the storage read raised `ClientError`, or bytes were fetched and
`yaml.safe_load` either raised or produced a YAML value. -/
inductive FetchOutcome where
  | clientError : FetchOutcome
  | fetched : Except Unit Yaml → FetchOutcome

/-- The uncaught Python exceptions the config-driven handler can raise:
a YAML parse error, a missing / malformed change record, a failed
configuration subscription, or a non-string project name reaching the
build call. -/
inductive PyErr where
  | yamlError : PyErr
  | eventError : PyErr
  | keyError : PyErr
  | typeError : PyErr
deriving DecidableEq, Repr

/-- The environment variables the config-driven handler reads. -/
structure ConfigEnv where
  S3_BUCKET_NAME : String
  S3_OBJECT_KEY : String
deriving DecidableEq, Repr

/-- Python's `str.split(s, sep)` on the character list of `s` for a
one-character separator: always a non-empty list of (possibly empty)
fragments. -/
def splitChars (sep : Char) : List Char → List (List Char)
  | [] => [[]]
  | c :: cs =>
    if c = sep then [] :: splitChars sep cs
    else
      match splitChars sep cs with
      | [] => [[c]]
      | r :: rs => (c :: r) :: rs

/-- Python's `str.split(s, sep)` for a one-character separator. -/
def pySplit (s : String) (sep : Char) : List String :=
  (splitChars sep s.data).map String.mk

/-- Line 66 of `src/lambda/app.py`: `str.split(change_file, "/")[0]`. -/
def base_folder_of (change_file : String) : String :=
  (pySplit change_file (Char.ofNat 47)).headD ""

/-- The config-driven handler of `src/lambda/app.py` (`lambda_handler`).
`fetch` is the outcome of the `object.get()...read()` / `yaml.safe_load`
stage and `start_build` maps a project name to the build status the build
service returns for it.  The second component lists the project names
passed to `start_build`. -/
def lambda_handler (env : ConfigEnv) (fetch : FetchOutcome)
    (event : S3EventNotification) (start_build : String → String) :
    Except PyErr LambdaResponse × List String :=
  match fetch with
  | FetchOutcome.clientError =>
      (Except.ok ⟨false, 500,
        jsonDumps (readFailMsg env.S3_OBJECT_KEY env.S3_BUCKET_NAME)⟩, [])
  | FetchOutcome.fetched parseResult =>
    match parseResult with
    | Except.error _ => (Except.error PyErr.yamlError, [])
    | Except.ok config =>
      match event.Records with
      | [] => (Except.error PyErr.eventError, [])
      | record :: _ =>
        let change_file := record.s3.object.key
        let base_folder := base_folder_of change_file
        match Yaml.lookup config "Folder" with
        | none => (Except.error PyErr.keyError, [])
        | some folder =>
          match Yaml.lookup folder base_folder with
          | none => (Except.error PyErr.keyError, [])
          | some (Yaml.map _) => (Except.error PyErr.typeError, [])
          | some (Yaml.str codebuild_project) =>
            let build_status := start_build codebuild_project
            if ¬ (build_status ∈ ["SUCCEEDED", "IN_PROGRESS"]) then
              (Except.ok ⟨false, 500,
                jsonDumps (failMsg codebuild_project build_status)⟩,
               [codebuild_project])
            else
              (Except.ok ⟨false, 200,
                jsonDumps (successMsg build_status)⟩,
               [codebuild_project])

/-- The trigger-by-name handler of `src/infra/lambda/app.py`
(`lambda_handler`): the project name comes from the `CODEBUILD_PROJECT`
environment variable; the event is received but never read. -/
def lambda_handler_name (CODEBUILD_PROJECT : String)
    (event : S3EventNotification) (start_build : String → String) :
    LambdaResponse × List String :=
  let build_status := start_build CODEBUILD_PROJECT
  if ¬ (build_status ∈ ["SUCCEEDED", "IN_PROGRESS"]) then
    (⟨false, 500, jsonDumps (failMsg CODEBUILD_PROJECT build_status)⟩,
     [CODEBUILD_PROJECT])
  else
    (⟨false, 200, jsonDumps (successMsg build_status)⟩, [CODEBUILD_PROJECT])

/-- Steps 3 and 4 of the config-driven handler: the project name the fetched
configuration resolves the event to, `none` on any of the uncaught failure
shapes (no record, no `Folder` mapping, segment absent, non-string value). -/
def resolveProject (config : Yaml) (event : S3EventNotification) :
    Option String :=
  match event.Records with
  | [] => none
  | record :: _ =>
    match Yaml.lookup config "Folder" with
    | none => none
    | some folder =>
      match Yaml.lookup folder (base_folder_of record.s3.object.key) with
      | some (Yaml.str p) => some p
      | _ => none

/-- The spec's description of the lookup segment: the substring of the
changed object key up to (not including) the first path separator. -/
def upToFirstSlash (s : String) : String :=
  String.mk (s.data.takeWhile (fun c => c != Char.ofNat 47))

/-- A character `json.dumps` leaves unescaped: printable ASCII other than
the double quote and the backslash. -/
def plainChar (c : Char) : Prop :=
  32 ≤ c.toNat ∧ c.toNat ≤ 126 ∧ c ≠ Char.ofNat 34 ∧ c ≠ Char.ofNat 92

instance (c : Char) : Decidable (plainChar c) := by
  unfold plainChar
  infer_instance

/-- A concrete configuration (spec scenario 1): folder `site` maps to
project `site-build`. -/
def configW : Yaml := Yaml.map [("Folder", Yaml.map [("site", Yaml.str "site-build")])]

/-- A concrete notification whose first record's object key is
`site/index.html`. -/
def evW : S3EventNotification :=
  ⟨[⟨"ObjectCreated:Put", ⟨"my-bucket", ⟨"site/index.html", 42⟩⟩⟩]⟩

/-- A concrete environment for the config-driven handler. -/
def envW : ConfigEnv := ⟨"my-bucket", "config.yml"⟩

theorem splitChars_ne_nil (sep : Char) (l : List Char) : splitChars sep l ≠ [] := by
  induction l with
  | nil => simp [splitChars]
  | cons c cs ih =>
    simp only [splitChars]
    split
    · simp
    · split
      · simp
      · simp

theorem splitChars_headD (sep : Char) (l : List Char) :
    (splitChars sep l).headD [] = l.takeWhile (fun c => c != sep) := by
  induction l with
  | nil => simp [splitChars]
  | cons c cs ih =>
    simp only [splitChars, List.takeWhile_cons]
    by_cases hc : c = sep
    · simp [hc]
    · rw [if_neg hc]
      have hb : (c != sep) = true := by simp [hc]
      rw [hb]
      cases hs : splitChars sep cs with
      | nil => exact absurd hs (splitChars_ne_nil sep cs)
      | cons r rs =>
        rw [hs] at ih
        simp at ih
        simp [ih]

theorem base_folder_of_eq_upToFirstSlash (s : String) :
    base_folder_of s = upToFirstSlash s := by
  unfold base_folder_of pySplit upToFirstSlash
  cases hs : splitChars (Char.ofNat 47) s.data with
  | nil => exact absurd hs (splitChars_ne_nil _ _)
  | cons r rs =>
    have hh := splitChars_headD (Char.ofNat 47) s.data
    rw [hs] at hh
    simp at hh
    simp [hh]

theorem lambda_handler_resolved (env : ConfigEnv) (config : Yaml)
    (event : S3EventNotification) (start_build : String → String) (p : String)
    (h : resolveProject config event = some p) :
    lambda_handler env (FetchOutcome.fetched (Except.ok config)) event start_build =
      (if ¬ (start_build p ∈ ["SUCCEEDED", "IN_PROGRESS"]) then
        (Except.ok ⟨false, 500, jsonDumps (failMsg p (start_build p))⟩, [p])
      else
        (Except.ok ⟨false, 200, jsonDumps (successMsg (start_build p))⟩, [p])) := by
  obtain ⟨rs⟩ := event
  cases rs with
  | nil => simp [resolveProject] at h
  | cons record rest =>
    simp only [resolveProject] at h
    cases hf : Yaml.lookup config "Folder" with
    | none =>
      simp only [hf] at h
      exact Option.noConfusion h
    | some folder =>
      simp only [hf] at h
      cases hl : Yaml.lookup folder (base_folder_of record.s3.object.key) with
      | none =>
        simp only [hl] at h
        exact Option.noConfusion h
      | some v =>
        simp only [hl] at h
        cases v with
        | map entries => simp at h
        | str q =>
          simp only [Option.some.injEq] at h
          subst h
          simp only [lambda_handler, hf, hl]

theorem jsonEscapeChar_plain (c : Char) (h : plainChar c) : jsonEscapeChar c = [c] := by
  obtain ⟨h1, h2, h3, h4⟩ := h
  unfold jsonEscapeChar
  rw [if_neg h3, if_neg h4,
      if_neg (fun hc => absurd (hc ▸ h1) (by decide)),
      if_neg (fun hc => absurd (hc ▸ h1) (by decide)),
      if_neg (fun hc => absurd (hc ▸ h1) (by decide)),
      if_neg (fun hc => absurd (hc ▸ h1) (by decide)),
      if_neg (fun hc => absurd (hc ▸ h1) (by decide)),
      if_neg (by omega)]

theorem jsonEscape_plain_list (l : List Char) (h : ∀ c ∈ l, plainChar c) :
    (l.map jsonEscapeChar).flatten = l := by
  induction l with
  | nil => rfl
  | cons c cs ih =>
    simp only [List.map_cons, List.flatten_cons]
    rw [jsonEscapeChar_plain c (h c (List.mem_cons_self c cs)),
        ih (fun d hd => h d (List.mem_cons_of_mem c hd))]
    rfl

/-- C1: for both handlers, a returned build status of `SUCCEEDED` or
`IN_PROGRESS` yields a 200 response whose body is the JSON encoding of the
success message naming that status. -/
theorem build_ok_gives_200 (st : String)
    (hst : st = "SUCCEEDED" ∨ st = "IN_PROGRESS") :
    (∀ (p : String) (event : S3EventNotification),
      (lambda_handler_name p event (fun _ => st)).1 =
        ⟨false, 200, jsonDumps (successMsg st)⟩) ∧
    (∀ (env : ConfigEnv) (config : Yaml) (event : S3EventNotification) (p : String),
      resolveProject config event = some p →
      (lambda_handler env (FetchOutcome.fetched (Except.ok config)) event
          (fun _ => st)).1 =
        Except.ok ⟨false, 200, jsonDumps (successMsg st)⟩) := by
  have hmem : st ∈ ["SUCCEEDED", "IN_PROGRESS"] := by
    rcases hst with h | h <;> simp [h]
  constructor
  · intro p event
    unfold lambda_handler_name
    simp [hmem]
  · intro env config event p h
    rw [lambda_handler_resolved env config event (fun _ => st) p h]
    simp [hmem]

theorem build_ok_gives_200_witness :
    ("SUCCEEDED" = "SUCCEEDED" ∨ "SUCCEEDED" = "IN_PROGRESS") ∧
    resolveProject configW evW = some "site-build" ∧
    (lambda_handler_name "demo" evW (fun _ => "SUCCEEDED")).1 =
      ⟨false, 200, jsonDumps (successMsg "SUCCEEDED")⟩ ∧
    (lambda_handler envW (FetchOutcome.fetched (Except.ok configW)) evW
        (fun _ => "SUCCEEDED")).1 =
      Except.ok ⟨false, 200, jsonDumps (successMsg "SUCCEEDED")⟩ :=
  ⟨Or.inl rfl, rfl,
   (build_ok_gives_200 "SUCCEEDED" (Or.inl rfl)).1 "demo" evW,
   (build_ok_gives_200 "SUCCEEDED" (Or.inl rfl)).2 envW configW evW "site-build" rfl⟩

/-- C2: for both handlers, any returned build status other than `SUCCEEDED`
and `IN_PROGRESS` yields a 500 response whose body is the JSON encoding of
the failure message naming the project and that status; for statuses made
of plain characters the status text occurs verbatim inside the body. -/
theorem build_fail_gives_500 (st : String)
    (hst : ¬ (st = "SUCCEEDED" ∨ st = "IN_PROGRESS")) :
    (∀ (p : String) (event : S3EventNotification),
      (lambda_handler_name p event (fun _ => st)).1 =
        ⟨false, 500, jsonDumps (failMsg p st)⟩) ∧
    (∀ (env : ConfigEnv) (config : Yaml) (event : S3EventNotification) (p : String),
      resolveProject config event = some p →
      lambda_handler env (FetchOutcome.fetched (Except.ok config)) event
          (fun _ => st) =
        (Except.ok ⟨false, 500, jsonDumps (failMsg p st)⟩, [p])) ∧
    (∀ p : String, (∀ c ∈ st.data, plainChar c) →
      st.data <:+: (jsonDumps (failMsg p st)).data) := by
  have hmem : ¬ (st ∈ ["SUCCEEDED", "IN_PROGRESS"]) := by
    simp only [List.mem_cons, List.mem_singleton, List.not_mem_nil]
    simpa using hst
  refine ⟨?_, ?_, ?_⟩
  · intro p event
    unfold lambda_handler_name
    simp [hmem]
  · intro env config event p h
    rw [lambda_handler_resolved env config event (fun _ => st) p h]
    simp [hmem]
  · intro p hplain
    have hpl := jsonEscape_plain_list st.data hplain
    refine ⟨Char.ofNat 34 ::
      ((("Failed to CodeBuild project " ++ apo ++ p ++ apo ++
         ", build status returned " ++ apo).data.map jsonEscapeChar).flatten),
      (apo.data.map jsonEscapeChar).flatten ++ [Char.ofNat 34], ?_⟩
    simp only [jsonDumps, failMsg, String.data_append, List.map_append,
      List.flatten_append, hpl]
    simp [List.append_assoc]

theorem build_fail_gives_500_witness :
    (¬ ("FAILED" = "SUCCEEDED" ∨ "FAILED" = "IN_PROGRESS")) ∧
    resolveProject configW evW = some "site-build" ∧
    (∀ c ∈ "FAILED".data, plainChar c) ∧
    (lambda_handler_name "site-build" evW (fun _ => "FAILED")).1 =
      ⟨false, 500, jsonDumps (failMsg "site-build" "FAILED")⟩ ∧
    lambda_handler envW (FetchOutcome.fetched (Except.ok configW)) evW
        (fun _ => "FAILED") =
      (Except.ok ⟨false, 500, jsonDumps (failMsg "site-build" "FAILED")⟩,
       ["site-build"]) ∧
    "FAILED".data <:+: (jsonDumps (failMsg "site-build" "FAILED")).data :=
  ⟨by decide, rfl, by decide,
   (build_fail_gives_500 "FAILED" (by decide)).1 "site-build" evW,
   (build_fail_gives_500 "FAILED" (by decide)).2.1 envW configW evW "site-build" rfl,
   (build_fail_gives_500 "FAILED" (by decide)).2.2 "site-build" (by decide)⟩

/-- C3: when the configuration fetch raises a client error, the
config-driven handler returns a 500 response whose body is the JSON
encoding of the read-failure message naming the configured object key and
bucket, and passes no project to the build service. -/
theorem fetch_failure_short_circuits (env : ConfigEnv)
    (event : S3EventNotification) (start_build : String → String) :
    lambda_handler env FetchOutcome.clientError event start_build =
      (Except.ok ⟨false, 500,
        jsonDumps (readFailMsg env.S3_OBJECT_KEY env.S3_BUCKET_NAME)⟩, []) := rfl

/-- C4: the configuration lookup segment computed by the config-driven
handler equals the substring of the object key up to (not including) the
first slash; in particular for a key without a slash it equals the whole
key. -/
theorem lookup_segment_spec (key : String) :
    base_folder_of key = upToFirstSlash key ∧
    (Char.ofNat 47 ∉ key.data → base_folder_of key = key) := by
  refine ⟨base_folder_of_eq_upToFirstSlash key, fun h => ?_⟩
  rw [base_folder_of_eq_upToFirstSlash key]
  unfold upToFirstSlash
  have ht : key.data.takeWhile (fun c => c != Char.ofNat 47) = key.data := by
    rw [List.takeWhile_eq_self_iff]
    intro c hc
    simp only [bne_iff_ne, ne_eq, decide_eq_true_eq]
    intro he
    exact h (he ▸ hc)
  rw [ht]

theorem lookup_segment_spec_witness :
    Char.ofNat 47 ∉ "site".data ∧ base_folder_of "site" = "site" :=
  ⟨by decide, (lookup_segment_spec "site").2 (by decide)⟩

/-- C5: for a configuration with a `Folder` sub-mapping and an object key
whose first path segment is bound there, the project name the config-driven
handler passes to the build service is exactly the one bound under the
segment. -/
theorem resolved_project_matches_config (env : ConfigEnv) (record : S3Record)
    (rest : List S3Record) (start_build : String → String) (config : Yaml)
    (folderEntries : List (String × Yaml)) (p : String)
    (hF : Yaml.lookup config "Folder" = some (Yaml.map folderEntries))
    (hseg : List.lookup (base_folder_of record.s3.object.key) folderEntries =
      some (Yaml.str p)) :
    (lambda_handler env (FetchOutcome.fetched (Except.ok config))
      ⟨record :: rest⟩ start_build).2 = [p] := by
  have hres : resolveProject config ⟨record :: rest⟩ = some p := by
    simp only [resolveProject, hF]
    simp only [Yaml.lookup, hseg]
  rw [lambda_handler_resolved env config ⟨record :: rest⟩ start_build p hres]
  by_cases hb : start_build p ∈ ["SUCCEEDED", "IN_PROGRESS"] <;> simp [hb]

theorem resolved_project_matches_config_witness :
    Yaml.lookup configW "Folder" =
      some (Yaml.map [("site", Yaml.str "site-build")]) ∧
    List.lookup (base_folder_of "site/index.html")
      [("site", Yaml.str "site-build")] = some (Yaml.str "site-build") ∧
    (lambda_handler envW (FetchOutcome.fetched (Except.ok configW))
      ⟨[⟨"ObjectCreated:Put", ⟨"my-bucket", ⟨"site/index.html", 42⟩⟩⟩]⟩
      (fun _ => "IN_PROGRESS")).2 = ["site-build"] :=
  ⟨rfl, rfl,
   resolved_project_matches_config envW
     ⟨"ObjectCreated:Put", ⟨"my-bucket", ⟨"site/index.html", 42⟩⟩⟩ []
     (fun _ => "IN_PROGRESS") configW [("site", Yaml.str "site-build")]
     "site-build" rfl rfl⟩

theorem lambda_handler_unresolved (env : ConfigEnv) (config : Yaml)
    (record : S3Record) (rest : List S3Record) (start_build : String → String)
    (h : resolveProject config ⟨record :: rest⟩ = none) :
    ∃ e : PyErr, lambda_handler env (FetchOutcome.fetched (Except.ok config))
      ⟨record :: rest⟩ start_build = (Except.error e, []) := by
  simp only [resolveProject] at h
  cases hf : Yaml.lookup config "Folder" with
  | none => exact ⟨PyErr.keyError, by simp only [lambda_handler, hf]⟩
  | some folder =>
    simp only [hf] at h
    cases hl : Yaml.lookup folder (base_folder_of record.s3.object.key) with
    | none => exact ⟨PyErr.keyError, by simp only [lambda_handler, hf, hl]⟩
    | some v =>
      simp only [hl] at h
      cases v with
      | str q => simp at h
      | map entries =>
        exact ⟨PyErr.typeError, by simp only [lambda_handler, hf, hl]⟩

/-- C6: every response either handler returns has `isBase64Encoded = false`,
status code 200 or 500, and a body that is the JSON encoding of a single
string. -/
theorem response_wellformed :
    (∀ (p : String) (event : S3EventNotification) (start_build : String → String),
      (lambda_handler_name p event start_build).1.isBase64Encoded = false ∧
      ((lambda_handler_name p event start_build).1.statusCode = 200 ∨
       (lambda_handler_name p event start_build).1.statusCode = 500) ∧
      ∃ s, (lambda_handler_name p event start_build).1.body = jsonDumps s) ∧
    (∀ (env : ConfigEnv) (fetch : FetchOutcome) (event : S3EventNotification)
       (start_build : String → String) (r : LambdaResponse) (calls : List String),
      lambda_handler env fetch event start_build = (Except.ok r, calls) →
      r.isBase64Encoded = false ∧ (r.statusCode = 200 ∨ r.statusCode = 500) ∧
      ∃ s, r.body = jsonDumps s) := by
  constructor
  · intro p event start_build
    unfold lambda_handler_name
    by_cases hb : start_build p ∈ ["SUCCEEDED", "IN_PROGRESS"]
    · rw [if_neg (not_not_intro hb)]
      exact ⟨rfl, Or.inl rfl, successMsg (start_build p), rfl⟩
    · rw [if_pos hb]
      exact ⟨rfl, Or.inr rfl, failMsg p (start_build p), rfl⟩
  · intro env fetch event start_build r calls h
    cases fetch with
    | clientError =>
      injection h with h1 h2
      injection h1 with h1
      subst h1
      exact ⟨rfl, Or.inr rfl, readFailMsg env.S3_OBJECT_KEY env.S3_BUCKET_NAME, rfl⟩
    | fetched pr =>
      cases pr with
      | error e =>
        injection h with h1 h2
        exact Except.noConfusion h1
      | ok config =>
        obtain ⟨rs⟩ := event
        cases rs with
        | nil =>
          injection h with h1 h2
          exact Except.noConfusion h1
        | cons record rest =>
          cases hres : resolveProject config ⟨record :: rest⟩ with
          | none =>
            obtain ⟨e, he⟩ :=
              lambda_handler_unresolved env config record rest start_build hres
            rw [he] at h
            injection h with h1 h2
            exact Except.noConfusion h1
          | some p =>
            rw [lambda_handler_resolved env config ⟨record :: rest⟩ start_build p hres] at h
            by_cases hb : start_build p ∈ ["SUCCEEDED", "IN_PROGRESS"]
            · rw [if_neg (not_not_intro hb)] at h
              injection h with h1 h2
              injection h1 with h1
              subst h1
              exact ⟨rfl, Or.inl rfl, successMsg (start_build p), rfl⟩
            · rw [if_pos hb] at h
              injection h with h1 h2
              injection h1 with h1
              subst h1
              exact ⟨rfl, Or.inr rfl, failMsg p (start_build p), rfl⟩

theorem response_wellformed_witness :
    lambda_handler envW FetchOutcome.clientError evW (fun _ => "SUCCEEDED") =
      (Except.ok ⟨false, 500, jsonDumps (readFailMsg "config.yml" "my-bucket")⟩, []) ∧
    ((⟨false, 500, jsonDumps (readFailMsg "config.yml" "my-bucket")⟩ :
        LambdaResponse).isBase64Encoded = false ∧
     ((⟨false, 500, jsonDumps (readFailMsg "config.yml" "my-bucket")⟩ :
        LambdaResponse).statusCode = 200 ∨
      (⟨false, 500, jsonDumps (readFailMsg "config.yml" "my-bucket")⟩ :
        LambdaResponse).statusCode = 500) ∧
     ∃ s, (⟨false, 500, jsonDumps (readFailMsg "config.yml" "my-bucket")⟩ :
        LambdaResponse).body = jsonDumps s) :=
  ⟨rfl, response_wellformed.2 envW FetchOutcome.clientError evW
    (fun _ => "SUCCEEDED") _ [] rfl⟩

/-- C7 counterexample: on an event with no records (configuration fetched
and parsed fine), the config-driven handler does not return a structured
response — the record subscription raises uncaught. -/
theorem handler_raises_on_empty_records :
    ¬ ∃ r : LambdaResponse,
      (lambda_handler envW (FetchOutcome.fetched (Except.ok configW))
        ⟨[]⟩ (fun _ => "SUCCEEDED")).1 = Except.ok r := by
  rintro ⟨r, h⟩
  exact Except.noConfusion h

/-- C7 (amended): the config-driven handler returns a structured response
whenever the configuration fetch raises a client error, or the fetched
bytes parse to a configuration that resolves the event's first record to a
project (a parse failure, an event without records, or a lookup segment
absent from the `Folder` mapping instead raises uncaught). -/
theorem handler_total_on_handled_paths (env : ConfigEnv)
    (fetch : FetchOutcome) (event : S3EventNotification)
    (start_build : String → String)
    (h : fetch = FetchOutcome.clientError ∨
      ∃ config p, fetch = FetchOutcome.fetched (Except.ok config) ∧
        resolveProject config event = some p) :
    ∃ r : LambdaResponse,
      (lambda_handler env fetch event start_build).1 = Except.ok r := by
  rcases h with h | ⟨config, p, hf, hres⟩
  · subst h
    exact ⟨_, rfl⟩
  · subst hf
    rw [lambda_handler_resolved env config event start_build p hres]
    by_cases hb : start_build p ∈ ["SUCCEEDED", "IN_PROGRESS"]
    · rw [if_neg (not_not_intro hb)]
      exact ⟨_, rfl⟩
    · rw [if_pos hb]
      exact ⟨_, rfl⟩

theorem handler_total_on_handled_paths_witness :
    (FetchOutcome.fetched (Except.ok configW) = FetchOutcome.clientError ∨
      ∃ config p, FetchOutcome.fetched (Except.ok configW) =
          FetchOutcome.fetched (Except.ok config) ∧
        resolveProject config evW = some p) ∧
    ∃ r : LambdaResponse,
      (lambda_handler envW (FetchOutcome.fetched (Except.ok configW)) evW
        (fun _ => "SUCCEEDED")).1 = Except.ok r :=
  ⟨Or.inr ⟨configW, "site-build", rfl, rfl⟩,
   handler_total_on_handled_paths envW (FetchOutcome.fetched (Except.ok configW))
     evW (fun _ => "SUCCEEDED") (Or.inr ⟨configW, "site-build", rfl, rfl⟩)⟩

/-- C8: once the config-driven handler has resolved a project, its build
invocation and response coincide with those of the trigger-by-name handler
run with that project name against the same build service. -/
theorem name_handler_refines_config_handler (env : ConfigEnv) (config : Yaml)
    (event₁ event₂ : S3EventNotification) (start_build : String → String)
    (p : String) (h : resolveProject config event₁ = some p) :
    lambda_handler env (FetchOutcome.fetched (Except.ok config)) event₁
        start_build =
      (Except.ok (lambda_handler_name p event₂ start_build).1,
       (lambda_handler_name p event₂ start_build).2) := by
  rw [lambda_handler_resolved env config event₁ start_build p h]
  unfold lambda_handler_name
  by_cases hb : start_build p ∈ ["SUCCEEDED", "IN_PROGRESS"]
  · rw [if_neg (not_not_intro hb), if_neg (not_not_intro hb)]
  · rw [if_pos hb, if_pos hb]

theorem name_handler_refines_config_handler_witness :
    resolveProject configW evW = some "site-build" ∧
    lambda_handler envW (FetchOutcome.fetched (Except.ok configW)) evW
        (fun _ => "FAILED") =
      (Except.ok (lambda_handler_name "site-build" ⟨[]⟩ (fun _ => "FAILED")).1,
       (lambda_handler_name "site-build" ⟨[]⟩ (fun _ => "FAILED")).2) :=
  ⟨rfl, name_handler_refines_config_handler envW configW evW ⟨[]⟩
    (fun _ => "FAILED") "site-build" rfl⟩

/-- C9: the config-driven handler's behaviour depends only on the first
record's object key — two events whose first records share an object key
produce the same build-start calls and the same result, whatever the other
record fields and the later records are. -/
theorem result_depends_only_on_first_record_key (env : ConfigEnv)
    (fetch : FetchOutcome) (start_build : String → String)
    (r₁ r₂ : S3Record) (rest₁ rest₂ : List S3Record)
    (h : r₁.s3.object.key = r₂.s3.object.key) :
    lambda_handler env fetch ⟨r₁ :: rest₁⟩ start_build =
      lambda_handler env fetch ⟨r₂ :: rest₂⟩ start_build := by
  cases fetch with
  | clientError => rfl
  | fetched pr =>
    cases pr with
    | error e => rfl
    | ok config => simp only [lambda_handler, h]

theorem result_depends_only_on_first_record_key_witness :
    (⟨"ObjectCreated:Put", ⟨"my-bucket", ⟨"site/index.html", 42⟩⟩⟩ :
        S3Record).s3.object.key =
      (⟨"ObjectCreated:Copy", ⟨"other-bucket", ⟨"site/index.html", 7⟩⟩⟩ :
        S3Record).s3.object.key ∧
    lambda_handler envW (FetchOutcome.fetched (Except.ok configW))
        ⟨[⟨"ObjectCreated:Put", ⟨"my-bucket", ⟨"site/index.html", 42⟩⟩⟩]⟩
        (fun _ => "SUCCEEDED") =
      lambda_handler envW (FetchOutcome.fetched (Except.ok configW))
        ⟨[⟨"ObjectCreated:Copy", ⟨"other-bucket", ⟨"site/index.html", 7⟩⟩⟩,
          ⟨"ObjectRemoved:Delete", ⟨"other-bucket", ⟨"infra/main.tf", 1⟩⟩⟩]⟩
        (fun _ => "SUCCEEDED") :=
  ⟨rfl, result_depends_only_on_first_record_key envW
    (FetchOutcome.fetched (Except.ok configW)) (fun _ => "SUCCEEDED")
    ⟨"ObjectCreated:Put", ⟨"my-bucket", ⟨"site/index.html", 42⟩⟩⟩
    ⟨"ObjectCreated:Copy", ⟨"other-bucket", ⟨"site/index.html", 7⟩⟩⟩
    [] [⟨"ObjectRemoved:Delete", ⟨"other-bucket", ⟨"infra/main.tf", 1⟩⟩⟩] rfl⟩

/-- C10: the trigger-by-name handler never reads the notification event:
with the same project name and the same status returned by the build
service for it, any two events give the same build-start call and the same
response. -/
theorem name_handler_ignores_event (p : String)
    (event₁ event₂ : S3EventNotification) (sb₁ sb₂ : String → String)
    (h : sb₁ p = sb₂ p) :
    lambda_handler_name p event₁ sb₁ = lambda_handler_name p event₂ sb₂ := by
  unfold lambda_handler_name
  rw [h]

theorem name_handler_ignores_event_witness :
    ((fun _ => "SUCCEEDED") : String → String) "demo" =
      ((fun _ => "SUCCEEDED") : String → String) "demo" ∧
    lambda_handler_name "demo" evW (fun _ => "SUCCEEDED") =
      lambda_handler_name "demo" ⟨[]⟩ (fun _ => "SUCCEEDED") :=
  ⟨rfl, name_handler_ignores_event "demo" evW ⟨[]⟩
    (fun _ => "SUCCEEDED") (fun _ => "SUCCEEDED") rfl⟩
